import Mathlib

/-!
# Verification of the scenario-service core (GameDay platform)

Shallow embedding of the scenario generation-and-validation pipeline:

* `scenario_service/utils/compliance.py` — compliance frameworks, per-control
  and overall scoring (`ComplianceFramework.validate_control`,
  `validate_compliance_mapping`, `calculate_compliance_score`);
* `scenario_service/models/scenario.py` — `Inject`, `Scenario`,
  `Scenario.add_inject`;
* `scenario_service/services/scenario_validator.py` — `ScenarioValidator`;
* `scenario_service/services/scenario_generator.py` — `ScenarioGenerator`.

Modelling conventions:

* Python floats are modelled as `ℚ`; every score used by the code is a sum of
  the literals 0.4 / 0.3 / 0.6 divided by small integers, so the arithmetic is
  exact and the embedding introduces no rounding.
* Python dicts are modelled as association lists (`List (key × value)`) read
  with `List.lookup`; dict insertion order is the list order.
* Wall-clock timestamps used only for telemetry/log strings are elided;
  the cache timestamps, which the code compares against the TTL, are kept as
  `Nat` seconds.
* A Python function that can raise becomes `Except String`.
-/

namespace GameDay

attribute [local semireducible] Rat.mul Rat.inv Rat.add Rat.sub

/-- Equality of `Except` results is decidable componentwise (used to evaluate
the embedded fallible functions on concrete inputs). -/
instance {ε : Type u} {α : Type v} [DecidableEq ε] [DecidableEq α] :
    DecidableEq (Except ε α) := fun x y =>
  match x, y with
  | .ok a, .ok b =>
      if h : a = b then isTrue (by rw [h]) else isFalse (by simp [h])
  | .ok _, .error _ => isFalse (by intro h; cases h)
  | .error _, .ok _ => isFalse (by intro h; cases h)
  | .error e, .error f =>
      if h : e = f then isTrue (by rw [h]) else isFalse (by simp [h])

/-! ## compliance.py -/

/-- `CONTROL_WEIGHTS`: severity → weight (critical 1.0, high 0.8, medium 0.6,
low 0.4). -/
def CONTROL_WEIGHTS : List (String × ℚ) :=
  [("critical", 1), ("high", 4/5), ("medium", 3/5), ("low", 2/5)]

/-- The two keys of `VALIDATION_LEVELS` ('strict' / 'standard'). -/
inductive ValidationLevel
  | strict
  | standard
deriving DecidableEq, Repr

/-- One entry of `VALIDATION_LEVELS`. -/
structure LevelConfig where
  threshold : ℚ
  require_evidence : Bool
deriving DecidableEq, Repr

/-- `VALIDATION_LEVELS`: strict = {0.95, evidence required},
standard = {0.85, no evidence required}. -/
def VALIDATION_LEVELS : ValidationLevel → LevelConfig
  | .strict => ⟨19/20, true⟩
  | .standard => ⟨17/20, false⟩

/-- The per-requirement implementation record
(`implementation['controls'][requirement]`).  The three booleans record the
truthiness of `.get('description')` / `.get('evidence')` / `.get('artifacts')`.
A requirement whose implementation dict is absent **or falsy** is modelled as a
missing association-list entry: the code's `if not ...get(requirement)` guard
treats both identically (score 0.0). -/
structure ReqImpl where
  description : Bool
  evidence : Bool
  artifacts : Bool
deriving DecidableEq, Repr

/-- A control implementation supplied by the scenario mapping
(`control_data`); only its `'controls'` sub-dict is read by the scorer. -/
structure ControlData where
  controls : List (String × ReqImpl)
deriving DecidableEq, Repr

/-- A framework control from the `COMPLIANCE_FRAMEWORKS` catalog. -/
structure Control where
  name : String
  description : String
  requirements : List String
  severity : String
deriving DecidableEq, Repr

/-- `ComplianceFramework` (the fields the scorer reads). -/
structure Framework where
  id : String
  name : String
  version : String
  controls : List (String × Control)
deriving DecidableEq, Repr

/-- The `soc2` entry of `COMPLIANCE_FRAMEWORKS`. -/
def soc2Framework : Framework :=
  { id := "soc2"
    name := "SOC 2"
    version := "2017"
    controls :=
      [("cc1",
        { name := "CC1.0"
          description := "Common Criteria Related to Organization and Management"
          requirements :=
            ["cc1.1: Demonstrate commitment to integrity and ethical values",
             "cc1.2: Exercise oversight responsibility",
             "cc1.3: Establish structure, authority, and responsibility",
             "cc1.4: Demonstrate commitment to competence"]
          severity := "critical" })] }

/-- The `gdpr` entry of `COMPLIANCE_FRAMEWORKS`. -/
def gdprFramework : Framework :=
  { id := "gdpr"
    name := "GDPR"
    version := "2018"
    controls :=
      [("art5",
        { name := "Article 5"
          description := "Principles relating to processing of personal data"
          requirements :=
            ["art5.1.a: Lawfulness, fairness and transparency",
             "art5.1.b: Purpose limitation",
             "art5.1.c: Data minimisation"]
          severity := "critical" })] }

/-- `COMPLIANCE_FRAMEWORKS` catalog. -/
def COMPLIANCE_FRAMEWORKS : List (String × Framework) :=
  [("soc2", soc2Framework), ("gdpr", gdprFramework)]

/-- `ComplianceFramework._validate_requirement`: 0.0 when the requirement has
no (truthy) implementation entry; otherwise 0.4 for a truthy description, plus
— with evidence required — 0.3 for evidence and 0.3 for artifacts, or a flat
0.6 otherwise. -/
def validateRequirement (requirement : String) (implementation : ControlData)
    (cfg : LevelConfig) : ℚ :=
  match implementation.controls.lookup requirement with
  | none => 0
  | some d =>
      (if d.description then 2/5 else 0) +
      (if cfg.require_evidence then
        (if d.evidence then 3/10 else 0) + (if d.artifacts then 3/10 else 0)
      else 3/5)

/-- The parts of `validate_control`'s result dict read downstream. -/
structure ControlValidation where
  score : ℚ
  requirements_met : Nat
  total_requirements : Nat
  is_compliant : Bool
deriving DecidableEq, Repr

/-- `ComplianceFramework.validate_control`: raises for a control id absent from
the framework; otherwise the control score is the mean of its requirement
scores and compliance means score ≥ the level threshold.  A control with an
empty requirement list would divide by zero in Python (`ZeroDivisionError`),
modelled as an error. -/
def Framework.validate_control (fw : Framework) (control_id : String)
    (implementation : ControlData) (level : ValidationLevel) :
    Except String (Bool × ℚ × ControlValidation) :=
  match fw.controls.lookup control_id with
  | none => .error ("Invalid control ID: " ++ control_id)
  | some control =>
      if control.requirements.length = 0 then
        .error "ZeroDivisionError: division by zero"
      else
        let cfg := VALIDATION_LEVELS level
        let scores := control.requirements.map
          (fun r => validateRequirement r implementation cfg)
        let total_score := scores.sum
        let requirements_met :=
          (scores.filter (fun s => cfg.threshold ≤ s)).length
        let control_score := total_score / control.requirements.length
        let is_compliant : Bool := decide (cfg.threshold ≤ control_score)
        .ok (is_compliant, control_score,
          ⟨control_score, requirements_met, control.requirements.length,
            is_compliant⟩)

/-- The `summary` sub-dict built by `validate_compliance_mapping`. -/
structure MappingSummary where
  total_controls : Nat
  compliant_controls : Nat
  overall_score : ℚ
deriving DecidableEq, Repr

/-- The result dict of `validate_compliance_mapping`: per-control
(compliant, score) pairs in mapping order, plus the summary. -/
structure MappingValidation where
  controls : List (String × Bool × ℚ)
  summary : MappingSummary
deriving DecidableEq, Repr

/-- The scoring loop of `validate_compliance_mapping`: validates each mapped
control in insertion order; the first raised error aborts the whole loop. -/
def scoreControls (fw : Framework) (level : ValidationLevel) :
    List (String × ControlData) → Except String (List (String × Bool × ℚ))
  | [] => .ok []
  | (control_id, control_data) :: rest => do
      let r ← fw.validate_control control_id control_data level
      let tail ← scoreControls fw level rest
      pure ((control_id, r.1, r.2.1) :: tail)

/-- `validate_compliance_mapping` after the framework has been looked up:
overall score is `total_score / total_controls` (0.0 for an empty mapping) and
the verdict compares it with the level threshold. -/
def validateMappingWith (fw : Framework)
    (scenario_controls : List (String × ControlData))
    (level : ValidationLevel) : Except String (Bool × MappingValidation) := do
  let results ← scoreControls fw level scenario_controls
  let total_controls := results.length
  let compliant_controls := (results.filter (fun r => r.2.1)).length
  let total_score := (results.map (fun r => r.2.2)).sum
  let overall_score : ℚ :=
    if total_controls = 0 then 0 else total_score / total_controls
  let is_compliant : Bool :=
    decide ((VALIDATION_LEVELS level).threshold ≤ overall_score)
  pure (is_compliant,
    ⟨results, ⟨total_controls, compliant_controls, overall_score⟩⟩)

/-- `validate_compliance_mapping(scenario_mapping, framework_id, level)`.
The argument is the `'controls'` sub-dict of the scenario mapping
(`scenario_mapping.get('controls', {})`); a missing sub-dict is the empty
list.  Raises for an unsupported framework id. -/
def validate_compliance_mapping (scenario_controls : List (String × ControlData))
    (framework_id : String) (level : ValidationLevel) :
    Except String (Bool × MappingValidation) :=
  match COMPLIANCE_FRAMEWORKS.lookup framework_id with
  | none => .error ("Unsupported compliance framework: " ++ framework_id)
  | some fw => validateMappingWith fw scenario_controls level

/-- The accumulation loop of `calculate_compliance_score`: Σ score·weight and
Σ weight over the scored controls; raises (`KeyError`) for a control id absent
from the framework or a severity absent from `CONTROL_WEIGHTS`. -/
def sumWeighted (fw : Framework) :
    List (String × Bool × ℚ) → Except String (ℚ × ℚ)
  | [] => .ok (0, 0)
  | (control_id, _, score) :: rest => do
      match fw.controls.lookup control_id with
      | none => .error ("KeyError: " ++ control_id)
      | some control =>
          match CONTROL_WEIGHTS.lookup control.severity with
          | none => .error ("KeyError: " ++ control.severity)
          | some weight => do
              let tail ← sumWeighted fw rest
              pure (score * weight + tail.1, weight + tail.2)

/-- `calculate_compliance_score` restricted to its `overall_score` output
(the only field its caller reads): the severity-weighted average
Σ(score × weight) / Σ weight, 0.0 when the total weight is 0. -/
def calcScoreWith (fw : Framework) (control_results : List (String × Bool × ℚ)) :
    Except String ℚ := do
  let sums ← sumWeighted fw control_results
  pure (if 0 < sums.2 then sums.1 / sums.2 else 0)

/-- `calculate_compliance_score(validation_results, framework_id)`: looks the
framework up in the catalog (KeyError when absent) and computes the weighted
overall score from the per-control results. -/
def calculate_compliance_score (results : MappingValidation)
    (framework_id : String) : Except String ℚ :=
  match COMPLIANCE_FRAMEWORKS.lookup framework_id with
  | none => .error ("KeyError: " ++ framework_id)
  | some fw => calcScoreWith fw results.controls

/-! ## models/scenario.py -/

/-- The keys of `SCENARIO_TYPES`. -/
def SCENARIO_TYPES : List String :=
  ["security_incident", "business_continuity", "compliance_validation",
   "crisis_management", "technical_recovery"]

/-- `SCENARIO_COMPLEXITY_LEVELS` — note the values are {1, 2, 3}. -/
def SCENARIO_COMPLEXITY_LEVELS : List (String × Int) :=
  [("low", 1), ("medium", 2), ("high", 3)]

/-- `DEFAULT_DURATION_MINUTES`. -/
def DEFAULT_DURATION_MINUTES : Int := 60

/-- The valid inject types of `Inject.validate_inject_type`. -/
def INJECT_TYPES : List String :=
  ["notification", "action", "decision", "escalation", "resolution"]

/-- The required content fields of `Inject.validate_content`. -/
def REQUIRED_CONTENT_FIELDS : List String :=
  ["message", "expected_response", "success_criteria"]

/-- `Inject`.  `content_keys` are the keys of the `content` dict (the code only
ever tests key membership); `ai_content_score` is `metadata.get('ai_content_score')`
(the only metadata entry the validator reads); `created_at` / `updated_at`
wall-clock fields are elided. -/
structure Inject where
  id : String
  title : String
  description : String
  type : String
  sequence_number : Int
  delay_minutes : Int
  content_keys : List String
  ai_content_score : Option ℚ
deriving DecidableEq, Repr

/-- The raw inject record returned by the content source
(`inject_data`, passed to `Inject(**inject_data)`). -/
structure InjectData where
  id : String
  title : String
  description : String
  type : String
  sequence_number : Int
  delay_minutes : Int
  content_keys : List String
  ai_content_score : Option ℚ
deriving DecidableEq, Repr

/-- `Inject(**inject_data)`: the pydantic validators run in field order —
`validate_inject_type` first, then `validate_content` —, each raising
`ValueError` on failure. -/
def mkInject (d : InjectData) : Except String Inject :=
  if ¬ d.type ∈ INJECT_TYPES then
    .error ("Invalid inject type: " ++ d.type)
  else if ¬ REQUIRED_CONTENT_FIELDS.all (fun f => d.content_keys.contains f) then
    .error "Missing required content fields"
  else
    .ok ⟨d.id, d.title, d.description, d.type, d.sequence_number,
      d.delay_minutes, d.content_keys, d.ai_content_score⟩

/-- The organization-context dict.  Fields the validator reads:
`scenario_capabilities` (its key set), `max_complexity`, `primary_framework`;
the four fields required by `ScenarioValidator.__init__` are kept so the
context is well-formed. -/
structure OrgContext where
  industry : String
  size : String
  region : String
  compliance_frameworks : List String
  scenario_capabilities : List String
  max_complexity : Option Int
  primary_framework : Option String
deriving DecidableEq, Repr

/-- `Scenario.metadata` entries the services read: the `ai_generated` flag
(truthiness of `metadata.get('ai_generated')`), the scenario-level
`ai_description_score`, and the default `compliance_framework` id. -/
structure ScenarioMetadata where
  ai_generated : Bool
  ai_description_score : Option ℚ
  compliance_framework : Option String
deriving DecidableEq, Repr

/-- The telemetry entries touched by `add_inject` (`inject_count`; the
`last_inject_added` wall-clock string is elided). -/
structure Telemetry where
  inject_count : Option Nat
deriving DecidableEq, Repr

/-- `Scenario`.  `compliance_mappings` is the `'controls'` sub-dict of the
scenario's compliance mapping (a mapping without that key behaves as the empty
list); `organization_context = none` models a falsy/empty context dict;
`created_at` / `updated_at` are elided. -/
structure Scenario where
  id : String
  title : String
  description : String
  type : String
  complexity_level : Int
  duration_minutes : Int
  injects : List Inject
  compliance_mappings : List (String × ControlData)
  organization_context : Option OrgContext
  metadata : ScenarioMetadata
  telemetry : Telemetry
deriving DecidableEq, Repr

/-- `Scenario(...)`: the pydantic validators `validate_scenario_type` and
`validate_complexity` run at construction, each raising `ValueError`; the
duration defaults to `DEFAULT_DURATION_MINUTES`; a fresh scenario starts with
no injects.  The generated uuid is passed in as `id`. -/
def mkScenario (id title description type_ : String) (complexity_level : Int)
    (organization_context : Option OrgContext) (duration_minutes : Option Int)
    (compliance_mappings : List (String × ControlData))
    (metadata : ScenarioMetadata) : Except String Scenario :=
  if ¬ type_ ∈ SCENARIO_TYPES then
    .error ("Invalid scenario type: " ++ type_)
  else if ¬ complexity_level ∈ SCENARIO_COMPLEXITY_LEVELS.map Prod.snd then
    .error ("Invalid complexity level: " ++ toString complexity_level)
  else
    .ok { id := id
          title := title
          description := description
          type := type_
          complexity_level := complexity_level
          duration_minutes := duration_minutes.getD DEFAULT_DURATION_MINUTES
          injects := []
          compliance_mappings := compliance_mappings
          organization_context := organization_context
          metadata := metadata
          telemetry := ⟨none⟩ }

/-- Ordering of injects by sequence number (the `key=lambda x:
x.sequence_number` of `add_inject`'s sort). -/
def injLE (a b : Inject) : Prop := a.sequence_number ≤ b.sequence_number

instance : DecidableRel injLE := fun a b => Int.decLe a.sequence_number b.sequence_number

instance : IsTotal Inject injLE :=
  ⟨fun a b => Int.le_total a.sequence_number b.sequence_number⟩

instance : IsTrans Inject injLE :=
  ⟨fun _ _ _ h1 h2 => Int.le_trans h1 h2⟩

/-- `Scenario.add_inject`: rejects a duplicate sequence number, then a timeline
overflow, otherwise appends the inject, re-sorts the list ascending by
sequence number and updates the telemetry.  Python's `list.sort` is a stable
ascending sort; it is modelled with `List.insertionSort`, which agrees with it
on every list whose keys are pairwise distinct (the only difference could be
the relative order of equal keys). -/
def Scenario.add_inject (s : Scenario) (inject : Inject) :
    (Bool × Option String) × Scenario :=
  if s.injects.any (fun existing => existing.sequence_number == inject.sequence_number) then
    ((false, some ("Sequence number " ++ toString inject.sequence_number ++
      " already exists")), s)
  else
    let total_duration := (s.injects.map (fun i => i.delay_minutes)).sum +
      inject.delay_minutes
    if s.duration_minutes < total_duration then
      ((false, some "Total inject duration exceeds scenario duration"), s)
    else
      let injects := List.insertionSort injLE (s.injects ++ [inject])
      ((true, none),
        { s with injects := injects
                 telemetry := ⟨some injects.length⟩ })

/-! ## services/scenario_validator.py

The validator's state is its organization context and its rule set
(`VALIDATION_RULES` merged with custom overrides); the embedded functions take
those explicitly.  Issue strings that interpolate `:.2f`-formatted floats are
abbreviated to their constant prefix — no claim reads their text, only whether
the issue list is empty. -/

/-- The validator rule set (`VALIDATION_RULES` merged with custom rules). -/
structure ValidationRules where
  min_injects : Nat
  max_injects : Nat
  min_duration : Int
  max_duration : Int
  compliance_threshold : ℚ
  ai_content_confidence : ℚ
  max_complexity_level : Int
deriving DecidableEq, Repr

/-- The default `VALIDATION_RULES`. -/
def VALIDATION_RULES : ValidationRules :=
  { min_injects := 3
    max_injects := 10
    min_duration := 30
    max_duration := 240
    compliance_threshold := 19/20
    ai_content_confidence := 17/20
    max_complexity_level := 5 }

/-- Module-level `validate_scenario_type`: the type must be a known scenario
type and a key of the organization's `scenario_capabilities` dict. -/
def validate_scenario_type (scenario_type : String) (org : OrgContext) :
    Bool × String :=
  if ¬ scenario_type ∈ SCENARIO_TYPES then
    (false, "Unsupported scenario type: " ++ scenario_type)
  else if ¬ scenario_type ∈ org.scenario_capabilities then
    (false, "Organization not configured for scenario type: " ++ scenario_type)
  else
    (true, "Valid scenario type")

/-- Module-level `validate_scenario_complexity`: `1 ≤ level ≤ max` where `max`
is the organization's `max_complexity` or the rule default (5). -/
def validate_scenario_complexity (complexity_level : Int) (org : OrgContext) :
    Bool × String :=
  let max_complexity := org.max_complexity.getD VALIDATION_RULES.max_complexity_level
  if 1 ≤ complexity_level ∧ complexity_level ≤ max_complexity then
    (true, "Valid complexity level")
  else
    (false, "Complexity level " ++ toString complexity_level ++
      " outside valid range (1-" ++ toString max_complexity ++ ")")

/-- `ScenarioValidator._validate_basic_structure`: the first failed check's
issue, or `none` when the structure is sound. -/
def basicStructureIssue (s : Scenario) : Option String :=
  if s.title.length < 5 then some "Invalid scenario title"
  else if s.description.length < 20 then some "Invalid scenario description"
  else if s.organization_context = none then some "Missing organization context"
  else none

/-- `ScenarioValidator._validate_single_inject`: the issues recorded for one
inject (title length, description length, required content fields). -/
def singleInjectIssues (inject : Inject) : List String :=
  (if inject.title.length < 5 then ["Invalid inject title: " ++ inject.id]
   else []) ++
  (if inject.description.length < 20 then
    ["Invalid inject description: " ++ inject.id]
   else []) ++
  (if (REQUIRED_CONTENT_FIELDS.filter
        (fun f => ¬ inject.content_keys.contains f)) ≠ [] then
    ["Missing required content fields in inject " ++ inject.id]
   else [])

/-- The per-inject loop of `validate_injects`: each inject contributes its own
issues followed by a duplicate-sequence-number issue when its sequence number
was already seen. -/
def injectLoopIssues (seen : List Int) : List Inject → List String
  | [] => []
  | inject :: rest =>
      singleInjectIssues inject ++
      (if inject.sequence_number ∈ seen then
        ["Duplicate sequence number: " ++ toString inject.sequence_number]
       else []) ++
      injectLoopIssues (inject.sequence_number :: seen) rest

/-- The parts of `validate_injects`' result dict read downstream. -/
structure InjectsValidation where
  is_valid : Bool
  inject_count : Nat
  timeline_valid : Bool
  issues : List String
deriving DecidableEq, Repr

/-- `ScenarioValidator.validate_injects`: an inject count outside
[min_injects, max_injects] returns immediately; otherwise per-inject issues
and duplicate detection accumulate, the total delay is compared with
[min_duration, max_duration], and the verdict is "no issues and timeline
valid". -/
def ScenarioValidator.validate_injects (rules : ValidationRules)
    (injects : List Inject) : Bool × InjectsValidation :=
  if ¬ (rules.min_injects ≤ injects.length ∧ injects.length ≤ rules.max_injects) then
    (false, ⟨false, injects.length, false,
      ["Invalid inject count: " ++ toString injects.length ++
        ". Expected between " ++ toString rules.min_injects ++ " and " ++
        toString rules.max_injects]⟩)
  else
    let loop_issues := injectLoopIssues [] injects
    let total_duration := (injects.map (fun i => i.delay_minutes)).sum
    let timeline_valid : Bool :=
      ¬ total_duration < rules.min_duration ∧ ¬ rules.max_duration < total_duration
    let issues := loop_issues ++
      (if total_duration < rules.min_duration then
        ["Total duration " ++ toString total_duration ++ "min below minimum " ++
          toString rules.min_duration ++ "min"]
       else if rules.max_duration < total_duration then
        ["Total duration " ++ toString total_duration ++ "min exceeds maximum " ++
          toString rules.max_duration ++ "min"]
       else [])
    let ok : Bool := issues = [] ∧ timeline_valid
    (ok, ⟨ok, injects.length, timeline_valid, issues⟩)

/-- `ScenarioValidator._validate_ai_content`: 1.0 for non-AI scenarios;
otherwise the mean of the scores the code collects.  `if metadata.get(...)`
admits a score only when the key is present **and its float value is truthy**,
i.e. non-zero — a score explicitly equal to 0.0 is skipped exactly like a
missing one.  With no collected scores the confidence is 0.0. -/
def ScenarioValidator.validate_ai_content (scenario : Scenario) : ℚ :=
  if ¬ scenario.metadata.ai_generated then 1
  else
    let scenario_scores :=
      match scenario.metadata.ai_description_score with
      | some q => if q ≠ 0 then [q] else []
      | none => []
    let inject_scores := scenario.injects.filterMap
      (fun i => match i.ai_content_score with
        | some q => if q ≠ 0 then some q else none
        | none => none)
    let confidence_scores := scenario_scores ++ inject_scores
    if confidence_scores = [] then 0
    else confidence_scores.sum / confidence_scores.length

/-- The parts of `validate_compliance_requirements`' result dict read by
`validate_scenario`: the reported `summary['overall_score']`, the weighted
`score_details['overall_score']` (absent in the exception branch), and the
recomputed top-level `is_compliant`. -/
structure ComplianceReqResult where
  overall_score : ℚ
  weighted_score : Option ℚ
  is_compliant : Bool
deriving DecidableEq, Repr

/-- `ScenarioValidator.validate_compliance_requirements` on a fresh validator
(the per-(scenario id, framework id) memo cache returns an earlier result of
this same computation unchanged, so it is not modelled).  It validates the
mapping at `strict` level, computes the **weighted** overall score with
`calculate_compliance_score`, and bases the returned verdict on the weighted
score against `compliance_threshold`, while `summary['overall_score']` stays
the unweighted mean from `validate_compliance_mapping`.  Any raised error is
caught and becomes `(False, {summary: {overall_score: 0.0}})`. -/
def ScenarioValidator.validate_compliance_requirements
    (compliance_threshold : ℚ) (scenario_controls : List (String × ControlData))
    (framework_id : String) : Bool × ComplianceReqResult :=
  match (do
      let r ← validate_compliance_mapping scenario_controls framework_id .strict
      let weighted ← calculate_compliance_score r.2 framework_id
      pure (r.2, weighted) : Except String (MappingValidation × ℚ)) with
  | .error _ => (false, ⟨0, none, false⟩)
  | .ok (vres, weighted) =>
      let compliant : Bool := decide (compliance_threshold ≤ weighted)
      (compliant, ⟨vres.summary.overall_score, some weighted, compliant⟩)

/-- The parts of `validate_scenario`'s result dict the claims read. -/
structure ValidationResult where
  is_valid : Bool
  compliance_score : ℚ
  ai_confidence : ℚ
  issues : List String
deriving DecidableEq, Repr

/-- `ScenarioValidator.validate_scenario`: a failed basic-structure gate
returns immediately; the type, complexity, inject and compliance gates then
accumulate issues; `compliance_score` is set to the compliance result's
`summary['overall_score']`; the AI-confidence gate runs only for AI-generated
scenarios; the final verdict needs an empty issue list, `compliance_score`
above `compliance_threshold`, and (for AI scenarios) the confidence above its
threshold.  The framework id resolves to the organization's
`primary_framework`, defaulting to `'soc2'` (Python resolves a falsy value the
same way through `framework_id or ...get('primary_framework', 'soc2')`). -/
def ScenarioValidator.validate_scenario (org : OrgContext)
    (rules : ValidationRules) (scenario : Scenario) : Bool × ValidationResult :=
  match basicStructureIssue scenario with
  | some issue => (false, ⟨false, 0, 0, [issue]⟩)
  | none =>
      let type_result := validate_scenario_type scenario.type org
      let issues1 : List String :=
        if type_result.1 then [] else ["Invalid scenario type: " ++ type_result.2]
      let complexity_result :=
        validate_scenario_complexity scenario.complexity_level org
      let issues2 := issues1 ++
        (if complexity_result.1 then []
         else ["Invalid complexity level: " ++ complexity_result.2])
      let inj := ScenarioValidator.validate_injects rules scenario.injects
      let issues3 := issues2 ++ (if inj.1 then [] else inj.2.issues)
      let framework_id := org.primary_framework.getD "soc2"
      let comp := ScenarioValidator.validate_compliance_requirements
        rules.compliance_threshold scenario.compliance_mappings framework_id
      let compliance_score := comp.2.overall_score
      let issues4 := issues3 ++
        (if comp.1 then [] else ["Compliance score below required threshold"])
      let ai_confidence : ℚ :=
        if scenario.metadata.ai_generated then
          ScenarioValidator.validate_ai_content scenario
        else 0
      let issues5 := issues4 ++
        (if scenario.metadata.ai_generated ∧
            ai_confidence < rules.ai_content_confidence then
          ["AI content confidence below threshold"]
         else [])
      let valid : Bool := issues5 = [] ∧
        rules.compliance_threshold ≤ compliance_score ∧
        (¬ scenario.metadata.ai_generated ∨
          rules.ai_content_confidence ≤ ai_confidence)
      (valid, ⟨valid, compliance_score, ai_confidence, issues5⟩)

/-! ## services/scenario_generator.py

`ScenarioGenerator` holds an injected content source (`LLMService`), an
injected validator, a config and a mutable cache.  The content source is
modelled as two call-indexed response streams (`generate_scenario` /
`generate_injects` may each fail, modelling a raised transient error), the
validator as a function `Scenario → Bool × ValidationResult`, and the mutable
state (cache plus the two invocation counters observed by the claims) is
threaded explicitly.  Wall-clock time enters only through the cache
timestamps; a call receives its time `now` in seconds. -/

/-- `DEFAULT_COMPLEXITY`. -/
def DEFAULT_COMPLEXITY : Int := 2

/-- `MAX_GENERATION_ATTEMPTS`. -/
def MAX_GENERATION_ATTEMPTS : Nat := 3

/-- `CACHE_TTL` (seconds). -/
def CACHE_TTL : Nat := 3600

/-- The generator config (`self._config`). -/
structure GenConfig where
  max_attempts : Nat
  compliance_threshold : ℚ
  cache_ttl : Nat
deriving DecidableEq, Repr

/-- The default generator config. -/
def defaultGenConfig : GenConfig := ⟨MAX_GENERATION_ATTEMPTS, 19/20, CACHE_TTL⟩

/-- The record returned by the content source's base-generation operation
(`llm_service.generate_scenario`). -/
structure ScenarioData where
  title : String
  description : String
  compliance_mappings : List (String × ControlData)
deriving DecidableEq, Repr

/-- The content source: response streams indexed by how many calls of the
respective operation happened before.  An `error` response models a raised
(transient) content-source failure. -/
structure ContentSource where
  base : Nat → Except String ScenarioData
  injects : Nat → Except String (List InjectData)

/-- One cache entry (`self._cache[key]`): the scenario, its validation result
and the insertion timestamp (seconds). -/
structure CacheEntry where
  scenario : Scenario
  validation : ValidationResult
  timestamp : Nat
deriving DecidableEq, Repr

/-- `_generate_cache_key(scenario_type, organization_context,
compliance_frameworks, complexity)`: the code joins the `str(...)` of the four
arguments; the key is modelled as the tuple itself, which identifies keys of
identical inputs exactly like the string join does. -/
structure CacheKey where
  scenario_type : String
  organization_context : OrgContext
  compliance_frameworks : List String
  complexity : Int
deriving DecidableEq, Repr

/-- The generator's mutable state: the cache (most recent insertion first, as
`lookup` must see the latest overwrite) and the content-source invocation
counters. -/
structure GenState where
  cache : List (CacheKey × CacheEntry)
  base_calls : Nat
  inject_calls : Nat
deriving DecidableEq, Repr

/-- `timedelta.seconds` of a non-negative whole-second timedelta: the seconds
**component** after normalisation into (days, seconds, microseconds) — the
total elapsed seconds modulo 86400, not `total_seconds()`. -/
def timedeltaSeconds (elapsed : Nat) : Nat := elapsed % 86400

/-- `ScenarioGenerator._get_cached_scenario`: a hit requires the key to be
present and `(utcnow() - entry.timestamp).seconds < cache_ttl`. -/
def ScenarioGenerator.get_cached_scenario (cfg : GenConfig)
    (cache : List (CacheKey × CacheEntry)) (key : CacheKey) (now : Nat) :
    Option (Scenario × ValidationResult) :=
  match cache.lookup key with
  | none => none
  | some entry =>
      if timedeltaSeconds (now - entry.timestamp) < cfg.cache_ttl then
        some (entry.scenario, entry.validation)
      else
        none

/-- `complexity_level or DEFAULT_COMPLEXITY`: Python `or` falls back on any
falsy value, so both a missing level and an explicit 0 yield the default. -/
def complexityOrDefault : Option Int → Int
  | none => DEFAULT_COMPLEXITY
  | some c => if c = 0 then DEFAULT_COMPLEXITY else c

/-- The inject-attachment loop of `generate_scenario`: each record is turned
into an `Inject` (a raised validation error aborts the whole attempt) and
passed to `add_inject`; a rejected add is logged and skipped, leaving the
scenario unchanged. -/
def addAllInjects (s : Scenario) : List InjectData → Except String Scenario
  | [] => .ok s
  | d :: rest => do
      let inject ← mkInject d
      let r := s.add_inject inject
      addAllInjects r.2 rest

/-- The generator's error taxonomy surfaced to callers: `ValueError` for a bad
type or complexity argument, `RuntimeError` once all attempts are exhausted. -/
inductive GenError
  | invalid_argument (msg : String)
  | attempts_exhausted
deriving DecidableEq, Repr

/-- The `while attempts < max_attempts` loop of `generate_scenario`, with the
remaining attempts as fuel.  One iteration requests base content, constructs
the candidate scenario, requests and attaches injects, validates, and either
caches-and-returns or falls through to the next attempt; any raised error
inside the attempt is caught and likewise consumes the attempt.  The uuid of
the candidate scenario is elided (constant `""`). -/
def attemptLoop (cfg : GenConfig) (source : ContentSource)
    (validate : Scenario → Bool × ValidationResult) (scenario_type : String)
    (org : OrgContext) (compliance_frameworks : List String) (complexity : Int)
    (key : CacheKey) (now : Nat) :
    Nat → GenState → Except GenError (Scenario × ValidationResult) × GenState
  | 0, st => (.error .attempts_exhausted, st)
  | fuel + 1, st =>
      let st1 : GenState := { st with base_calls := st.base_calls + 1 }
      match source.base st.base_calls with
      | .error _ =>
          attemptLoop cfg source validate scenario_type org
            compliance_frameworks complexity key now fuel st1
      | .ok scenario_data =>
          match mkScenario "" scenario_data.title scenario_data.description
              scenario_type complexity (some org) none
              scenario_data.compliance_mappings
              ⟨true, none, none⟩ with
          | .error _ =>
              attemptLoop cfg source validate scenario_type org
                compliance_frameworks complexity key now fuel st1
          | .ok scenario0 =>
              let st2 : GenState :=
                { st1 with inject_calls := st1.inject_calls + 1 }
              match source.injects st1.inject_calls with
              | .error _ =>
                  attemptLoop cfg source validate scenario_type org
                    compliance_frameworks complexity key now fuel st2
              | .ok inject_records =>
                  match addAllInjects scenario0 inject_records with
                  | .error _ =>
                      attemptLoop cfg source validate scenario_type org
                        compliance_frameworks complexity key now fuel st2
                  | .ok scenario =>
                      let v := validate scenario
                      if v.1 ∧ cfg.compliance_threshold ≤ v.2.compliance_score then
                        (.ok (scenario, v.2),
                          { st2 with cache :=
                              (key, ⟨scenario, v.2, now⟩) :: st2.cache })
                      else
                        attemptLoop cfg source validate scenario_type org
                          compliance_frameworks complexity key now fuel st2

/-- `ScenarioGenerator.generate_scenario`: eagerly rejects an unknown scenario
type and a complexity outside [1, 5] (`ValueError`, before any content-source
call), consults the cache, and on a miss runs the bounded attempt loop;
exhausted attempts raise `RuntimeError`. -/
def ScenarioGenerator.generate_scenario (cfg : GenConfig)
    (source : ContentSource) (validate : Scenario → Bool × ValidationResult)
    (scenario_type : String) (org : OrgContext)
    (compliance_frameworks : List String) (complexity_level : Option Int)
    (now : Nat) (st : GenState) :
    Except GenError (Scenario × ValidationResult) × GenState :=
  if ¬ scenario_type ∈ SCENARIO_TYPES then
    (.error (.invalid_argument ("Invalid scenario type: " ++ scenario_type)), st)
  else
    let complexity := complexityOrDefault complexity_level
    if ¬ (1 ≤ complexity ∧ complexity ≤ 5) then
      (.error (.invalid_argument ("Invalid complexity level: " ++
        toString complexity)), st)
    else
      let key : CacheKey := ⟨scenario_type, org, compliance_frameworks, complexity⟩
      match ScenarioGenerator.get_cached_scenario cfg st.cache key now with
      | some hit => (.ok hit, st)
      | none =>
          attemptLoop cfg source validate scenario_type org
            compliance_frameworks complexity key now cfg.max_attempts st

/-! ## Concrete fixtures

Concrete frameworks, scenarios, content sources and validator behaviours used
to evaluate the embedded code on specific inputs. -/

/-- A framework value with one fully-evidenced critical control and one
unimplemented low control — the configuration of the spec's weighted-score
example.  (`ComplianceFramework` accepts any control table; the shipped
catalog's frameworks each carry a single control.) -/
def fwTwoControls : Framework :=
  { id := "soc2", name := "Two control framework", version := "1",
    controls :=
      [("c1", ⟨"C1", "critical control", ["r1"], "critical"⟩),
       ("c2", ⟨"C2", "low control", ["r2"], "low"⟩)] }

/-- An implementation fully evidencing requirement `r1`. -/
def implFull : ControlData := ⟨[("r1", ⟨true, true, true⟩)]⟩

/-- An implementation evidencing nothing. -/
def implEmpty : ControlData := ⟨[]⟩

/-- A mapping scoring `c1` at 1.0 and `c2` at 0.0 under `strict`. -/
def mappingTwoControls : List (String × ControlData) :=
  [("c1", implFull), ("c2", implEmpty)]

/-- An implementation fully evidencing every `cc1` requirement of the shipped
`soc2` framework (per-requirement strict score 1.0). -/
def soc2FullImpl : ControlData :=
  ⟨[("cc1.1: Demonstrate commitment to integrity and ethical values", ⟨true, true, true⟩),
    ("cc1.2: Exercise oversight responsibility", ⟨true, true, true⟩),
    ("cc1.3: Establish structure, authority, and responsibility", ⟨true, true, true⟩),
    ("cc1.4: Demonstrate commitment to competence", ⟨true, true, true⟩)]⟩

/-- An organization context declaring the `security_incident` capability and
`soc2` as primary framework, with the default complexity maximum. -/
def orgGen : OrgContext :=
  ⟨"technology", "enterprise", "global", ["soc2"], ["security_incident"],
   none, some "soc2"⟩

/-- An accepting validation result (score 1.0). -/
def vresOk : ValidationResult := ⟨true, 1, 1, []⟩

/-- A rejecting validation result. -/
def vresBad : ValidationResult := ⟨false, 0, 0, ["rejected"]⟩

/-- The base-content response of the `n`-th content-source call: attempts are
distinguishable by title, as fresh content is requested on every attempt. -/
def sdataAt (n : Nat) : ScenarioData :=
  ⟨"Attempt " ++ toString n ++ " scenario title",
   "A generated scenario description used by the fixtures", []⟩

/-- A content source answering every base call with fresh content and every
inject call with an empty sequence. -/
def sourceFresh : ContentSource := ⟨fun n => .ok (sdataAt n), fun _ => .ok []⟩

/-- An injected validator that rejects the candidates of the first two
attempts and accepts the third attempt's candidate. -/
def validateThird : Scenario → Bool × ValidationResult :=
  fun s => if s.title = "Attempt 2 scenario title" then (true, vresOk) else (false, vresBad)

/-- An injected validator that rejects every candidate. -/
def validateNever : Scenario → Bool × ValidationResult := fun _ => (false, vresBad)

/-- An injected validator that rejects the first attempt's candidate and
accepts the second attempt's. -/
def validateSecond : Scenario → Bool × ValidationResult :=
  fun s => if s.title = "Attempt 1 scenario title" then (true, vresOk) else (false, vresBad)

/-- An injected validator that accepts every candidate. -/
def validateAlways : Scenario → Bool × ValidationResult := fun _ => (true, vresOk)

/-- A fresh generator state: empty cache, no content-source calls yet. -/
def st0 : GenState := ⟨[], 0, 0⟩

/-- First generate call of the retry fixture (validator accepts attempt 3). -/
def runRetryOk := ScenarioGenerator.generate_scenario defaultGenConfig sourceFresh
  validateThird "security_incident" orgGen ["soc2"] (some 2) 0 st0

/-- Generate call with an always-rejecting validator. -/
def runRetryFail := ScenarioGenerator.generate_scenario defaultGenConfig sourceFresh
  validateNever "security_incident" orgGen ["soc2"] (some 2) 0 st0

/-- First generate call of the caching fixture: the validator rejects
attempt 1 and accepts attempt 2, so this call invokes the base-generation
operation twice. -/
def runCacheFirst := ScenarioGenerator.generate_scenario defaultGenConfig sourceFresh
  validateSecond "security_incident" orgGen ["soc2"] (some 2) 0 st0

/-- Second generate call of the caching fixture, 10 seconds later, identical
inputs, starting from the first call's final state. -/
def runCacheSecond := ScenarioGenerator.generate_scenario defaultGenConfig sourceFresh
  validateSecond "security_incident" orgGen ["soc2"] (some 2) 10 runCacheFirst.2

/-- A well-formed scenario value used as a cache entry. -/
def scenCached : Scenario :=
  ⟨"sid", "Cached scenario", "A cached scenario description that is long enough",
   "security_incident", 2, 60, [], [], some orgGen, ⟨true, none, none⟩, ⟨none⟩⟩

/-- The cache key of the cached-scenario fixture. -/
def keyCached : CacheKey := ⟨"security_incident", orgGen, ["soc2"], 2⟩

/-- A cache entry inserted at time 0. -/
def entryCached : CacheEntry := ⟨scenCached, vresOk, 0⟩

/-- An inject record whose content dict is missing `expected_response` and
`success_criteria`: constructing an `Inject` from it raises. -/
def badInjectData : InjectData :=
  ⟨"x", "Broken inject", "This inject record is missing content fields",
   "notification", 2, 5, ["message"], none⟩

/-- A well-formed inject record. -/
def goodInjectData : InjectData :=
  ⟨"g1", "Inject gamma", "A well formed inject description here",
   "notification", 1, 0, REQUIRED_CONTENT_FIELDS, none⟩

/-- A content source whose inject sequences always contain one malformed
record after a well-formed one. -/
def sourceBadInject : ContentSource :=
  ⟨fun n => .ok (sdataAt n), fun _ => .ok [goodInjectData, badInjectData]⟩

/-- A well-formed inject with sequence number 1. -/
def injectSeqOne : Inject :=
  ⟨"a", "Inject alpha", "An inject description that is long enough here",
   "notification", 1, 10, REQUIRED_CONTENT_FIELDS, none⟩

/-- A second well-formed inject, also with sequence number 1. -/
def injectSeqOneB : Inject :=
  ⟨"b", "Inject bravo", "Another inject description that is long enough",
   "action", 1, 5, REQUIRED_CONTENT_FIELDS, none⟩

/-- A well-formed inject with sequence number 2. -/
def injectSeqTwo : Inject :=
  ⟨"c", "Inject charlie", "A third inject description that is long enough",
   "decision", 2, 15, REQUIRED_CONTENT_FIELDS, none⟩

/-- A scenario already holding the sequence-number-1 inject. -/
def scenWithSeqOne : Scenario :=
  ⟨"s7", "Duplicate test", "A scenario description that is long enough here",
   "security_incident", 2, 60, [injectSeqOne], [], some orgGen,
   ⟨false, none, none⟩, ⟨some 1⟩⟩

/-- An empty scenario (no injects yet), duration 60. -/
def scenEmpty : Scenario :=
  ⟨"s3", "Invariant test", "A scenario description that is long enough here",
   "security_incident", 2, 60, [], [], some orgGen, ⟨false, none, none⟩, ⟨none⟩⟩

/-- An inject carrying an explicit AI content score of 0.0. -/
def injectZeroScore : Inject :=
  ⟨"i0", "Inject alpha", "An inject description that is long enough here",
   "notification", 1, 10, REQUIRED_CONTENT_FIELDS, some 0⟩

/-- An AI-generated scenario whose scenario-level score is 1.0 and whose
single inject carries an explicit score of 0.0. -/
def scenZeroScore : Scenario :=
  ⟨"s8", "AI scenario", "An AI generated scenario description long enough",
   "security_incident", 2, 60, [injectZeroScore], [], some orgGen,
   ⟨true, some 1, none⟩, ⟨none⟩⟩

/-- An AI-generated scenario with scenario-level score 0.9 and inject scores
0.8 and 0.95, all non-zero. -/
def scenAiScored : Scenario :=
  ⟨"s9", "AI scenario", "An AI generated scenario description long enough",
   "security_incident", 2, 60,
   [{ injectSeqOne with ai_content_score := some (4/5) },
    { injectSeqTwo with ai_content_score := some (19/20) }],
   [], some orgGen, ⟨true, some (9/10), none⟩, ⟨none⟩⟩

/-- `Modelled from the spec:` the AI-confidence formula as §4.2 gate 6 states
it — "the arithmetic mean of the scenario-level content-quality score and
every inject's content-quality score (injects lacking a score are excluded
from the mean; if none have scores, confidence = 0.0)".  Used only to compare
the code's `_validate_ai_content` against the spec's words. -/
def specAiConfidence (scenario : Scenario) : ℚ :=
  let scores := scenario.metadata.ai_description_score.toList ++
    scenario.injects.filterMap (fun i => i.ai_content_score)
  if scores = [] then 0 else scores.sum / scores.length

/-! ## Helper definitions and lemmas for the claims -/

/-- The inject-list invariant of an accepted scenario: pairwise-distinct
sequence numbers, stored order ascending by sequence number, and total inject
delay within the scenario duration. -/
def ScenarioInvariant (s : Scenario) : Prop :=
  s.injects.Pairwise (fun a b => a.sequence_number ≠ b.sequence_number) ∧
  s.injects.Sorted injLE ∧
  (s.injects.map (fun i => i.delay_minutes)).sum ≤ s.duration_minutes

/-- Building a scenario's inject list exclusively through `add_inject`, as the
generator does: each inject is offered in turn and a rejected inject leaves
the scenario unchanged. -/
def addInjectsFold (s : Scenario) (l : List Inject) : Scenario :=
  l.foldl (fun acc i => (acc.add_inject i).2) s

theorem add_inject_preserves_invariant (s : Scenario) (i : Inject)
    (h : ScenarioInvariant s) : ScenarioInvariant (s.add_inject i).2 := by
  by_cases hdup : s.injects.any
      (fun e => e.sequence_number == i.sequence_number) = true
  · simpa [Scenario.add_inject, hdup] using h
  · by_cases hover : s.duration_minutes <
        (s.injects.map (fun x => x.delay_minutes)).sum + i.delay_minutes
    · simpa [Scenario.add_inject, hdup, hover] using h
    · have hperm := List.perm_insertionSort injLE (s.injects ++ [i])
      have hresult : (s.add_inject i).2 =
          { s with injects := List.insertionSort injLE (s.injects ++ [i])
                   telemetry :=
                     ⟨some (List.insertionSort injLE (s.injects ++ [i])).length⟩ } := by
        simp [Scenario.add_inject, hdup, hover]
      rw [hresult]
      refine ⟨?_, ?_, ?_⟩
      · refine (hperm.pairwise_iff (fun hxy e => hxy e.symm)).mpr ?_
        rw [List.pairwise_append]
        refine ⟨h.1, List.pairwise_singleton _ _, ?_⟩
        intro a ha b hb he
        have hbi : b = i := by simpa using hb
        apply hdup
        rw [List.any_eq_true]
        exact ⟨a, ha, by simp [beq_iff_eq, hbi ▸ he]⟩
      · exact List.sorted_insertionSort injLE _
      · have hsum : ((List.insertionSort injLE (s.injects ++ [i])).map
            (fun x => x.delay_minutes)).sum =
            ((s.injects ++ [i]).map (fun x => x.delay_minutes)).sum :=
          (hperm.map _).sum_eq
        simpa [hsum, List.map_append] using Int.not_lt.mp hover

theorem addInjectsFold_invariant (s : Scenario) (l : List Inject)
    (h : ScenarioInvariant s) : ScenarioInvariant (addInjectsFold s l) := by
  induction l generalizing s with
  | nil => simpa [addInjectsFold] using h
  | cons i rest ih =>
      simpa [addInjectsFold] using
        ih _ (add_inject_preserves_invariant s i h)

/-! ## Claims -/

/-- C3: every scenario built exclusively through `add_inject` (from an empty
inject list and a non-negative duration, as `generate` builds them) keeps its
stored inject list pairwise distinct in sequence numbers, sorted ascending by
sequence number, and with total delay no larger than the scenario duration;
and every successful (or failed) `add_inject` call preserves this invariant. -/
theorem C3_add_inject_invariant (s0 : Scenario) (l : List Inject)
    (h0 : s0.injects = []) (hd : 0 ≤ s0.duration_minutes) :
    ScenarioInvariant (addInjectsFold s0 l) ∧
    (∀ s i, ScenarioInvariant s → ScenarioInvariant (s.add_inject i).2) := by
  constructor
  · apply addInjectsFold_invariant
    exact ⟨by rw [h0]; exact List.Pairwise.nil,
           by rw [h0]; exact List.sorted_nil,
           by rw [h0]; simpa using hd⟩
  · exact fun s i h => add_inject_preserves_invariant s i h

/-- Witness for C3 at a concrete scenario and inject list (the list contains a
duplicate sequence number, which `add_inject` rejects along the way). -/
theorem C3_witness :
    ScenarioInvariant
      (addInjectsFold scenEmpty [injectSeqTwo, injectSeqOne, injectSeqOneB]) ∧
    (∀ s i, ScenarioInvariant s → ScenarioInvariant (s.add_inject i).2) :=
  C3_add_inject_invariant scenEmpty [injectSeqTwo, injectSeqOne, injectSeqOneB]
    rfl (by decide)

/-- C7: offering `add_inject` an inject whose sequence number is already taken
returns `(false, "Sequence number <n> already exists")` and leaves the whole
scenario — inject list, duration and telemetry — unchanged. -/
theorem C7_duplicate_sequence_rejected (s : Scenario) (i : Inject)
    (h : ∃ j ∈ s.injects, j.sequence_number = i.sequence_number) :
    s.add_inject i =
      ((false, some ("Sequence number " ++ toString i.sequence_number ++
        " already exists")), s) := by
  obtain ⟨j, hj, hseq⟩ := h
  have hdup : s.injects.any
      (fun e => e.sequence_number == i.sequence_number) = true := by
    rw [List.any_eq_true]
    exact ⟨j, hj, by simpa [beq_iff_eq] using hseq⟩
  simp [Scenario.add_inject, hdup]

/-- Witness for C7: a scenario holding an inject with sequence number 1
rejects a second sequence-number-1 inject with the exact message. -/
theorem C7_witness :
    scenWithSeqOne.add_inject injectSeqOneB =
      ((false, some "Sequence number 1 already exists"), scenWithSeqOne) :=
  C7_duplicate_sequence_rejected scenWithSeqOne injectSeqOneB
    ⟨injectSeqOne, by decide, by decide⟩

/-- A scenario carrying a fully evidenced `soc2` mapping and a sound basic
structure. -/
def scenSoc2 : Scenario :=
  ⟨"s1", "Compliance scenario", "A compliant scenario description long enough",
   "security_incident", 2, 60, [], [("cc1", soc2FullImpl)], some orgGen,
   ⟨false, none, none⟩, ⟨none⟩⟩

/-- C1 (counterexample): scoring a mapping with exactly two scored controls —
a critical one at 1.0 and a low one at 0.0 — reports `overall_score = 0.5`,
the unweighted mean, not the weighted average 5/7 ≈ 0.714 the claim asserts;
the weighted value is computed only by the separate
`calculate_compliance_score`. -/
theorem C1_counterexample :
    (validateMappingWith fwTwoControls mappingTwoControls .strict =
      .ok (false, ⟨[("c1", true, 1), ("c2", false, 0)], ⟨2, 1, 1/2⟩⟩)) ∧
    calcScoreWith fwTwoControls [("c1", true, 1), ("c2", false, 0)] = .ok (5/7) ∧
    (1/2 : ℚ) ≠ 5/7 := by decide

/-- C1 (amended): the compliance score reported in the validation report is
the **unweighted** mean Σ control_score / #scored_controls produced by
`validate_compliance_mapping`; the severity-weighted average
Σ(score × weight) / Σ weight is computed separately by
`calculate_compliance_score` and drives only the compliance verdict of
`validate_compliance_requirements`.  (With the shipped single-control
frameworks the two coincide.) -/
theorem C1_amended_reported_score (org : OrgContext) (rules : ValidationRules)
    (s : Scenario) (fw : Framework) (results : List (String × Bool × ℚ)) (w : ℚ)
    (hb : basicStructureIssue s = none)
    (hfw : COMPLIANCE_FRAMEWORKS.lookup (org.primary_framework.getD "soc2") = some fw)
    (hres : scoreControls fw .strict s.compliance_mappings = .ok results)
    (hw : calcScoreWith fw results = .ok w) :
    (ScenarioValidator.validate_scenario org rules s).2.compliance_score =
      (if results.length = 0 then 0
       else (results.map (fun r => r.2.2)).sum / results.length) ∧
    (ScenarioValidator.validate_compliance_requirements rules.compliance_threshold
        s.compliance_mappings (org.primary_framework.getD "soc2")).1 =
      decide (rules.compliance_threshold ≤ w) := by
  have hcomp : ScenarioValidator.validate_compliance_requirements
      rules.compliance_threshold s.compliance_mappings
      (org.primary_framework.getD "soc2") =
      (decide (rules.compliance_threshold ≤ w),
        ⟨if results.length = 0 then 0
         else (results.map (fun r => r.2.2)).sum / results.length, some w,
         decide (rules.compliance_threshold ≤ w)⟩) := by
    unfold ScenarioValidator.validate_compliance_requirements
    simp [validate_compliance_mapping, hfw, validateMappingWith, hres,
      calculate_compliance_score, hw, Except.bind, bind, pure, Except.pure]
  constructor
  · unfold ScenarioValidator.validate_scenario
    rw [hb]
    simp [hcomp]
  · rw [hcomp]

/-- Witness for C1 (amended) on the fully evidenced `soc2` scenario: one
scored control at 1.0, reported score 1.0, verdict from the weighted score. -/
theorem C1_witness :
    (ScenarioValidator.validate_scenario orgGen VALIDATION_RULES
        scenSoc2).2.compliance_score =
      (if ([("cc1", true, (1 : ℚ))].length = 0) then 0
       else ([("cc1", true, (1 : ℚ))].map (fun r => r.2.2)).sum /
         [("cc1", true, (1 : ℚ))].length) ∧
    (ScenarioValidator.validate_compliance_requirements
        VALIDATION_RULES.compliance_threshold scenSoc2.compliance_mappings
        (orgGen.primary_framework.getD "soc2")).1 =
      decide (VALIDATION_RULES.compliance_threshold ≤ (1 : ℚ)) :=
  C1_amended_reported_score orgGen VALIDATION_RULES scenSoc2 soc2Framework
    [("cc1", true, 1)] 1 (by decide) (by decide) (by decide) (by decide)

/-- C2: with `max_attempts = 3`, a validator rejecting the candidates of
attempts 1 and 2 and accepting attempt 3 lets `generate_scenario` succeed
after exactly 3 base-generation calls; an always-rejecting validator makes it
raise the attempts-exhausted error (`RuntimeError`), not return a
non-compliant scenario, again after exactly 3 base-generation calls. -/
theorem C2_bounded_retries :
    (runRetryOk.1.isOk = true ∧ runRetryOk.2.base_calls = 3) ∧
    (runRetryFail.1 = .error .attempts_exhausted ∧
      runRetryFail.2.base_calls = 3) := by decide

/-- C4 (code evaluated at the failing input): complexity levels 1–3 construct
and pass the validator's complexity gate, but 4 and 5 — legal for the claim,
the validator's range check, the generator's eager check and the test suite —
are rejected by `Scenario.validate_complexity` because
`SCENARIO_COMPLEXITY_LEVELS` only contains {1, 2, 3}; values outside [1, 5]
are rejected everywhere. -/
theorem C4_complexity_model_gap :
    (∀ c ∈ ([1, 2, 3] : List Int),
      (mkScenario "id" "Valid title" "A sufficiently long scenario description"
        "security_incident" c (some orgGen) none [] ⟨false, none, none⟩).isOk = true ∧
      (validate_scenario_complexity c orgGen).1 = true) ∧
    mkScenario "id" "Valid title" "A sufficiently long scenario description"
      "security_incident" 4 (some orgGen) none [] ⟨false, none, none⟩ =
      .error "Invalid complexity level: 4" ∧
    mkScenario "id" "Valid title" "A sufficiently long scenario description"
      "security_incident" 5 (some orgGen) none [] ⟨false, none, none⟩ =
      .error "Invalid complexity level: 5" ∧
    (validate_scenario_complexity 4 orgGen).1 = true ∧
    (validate_scenario_complexity 5 orgGen).1 = true ∧
    (validate_scenario_complexity 0 orgGen).1 = false ∧
    (validate_scenario_complexity 6 orgGen).1 = false := by decide

/-- C6 (code evaluated at the failing input): a cache entry inserted at time 0
is correctly treated as expired 3600 s (= TTL) later, but is served again at
86500 s — more than a day after insertion — because the lookup compares
`timedelta.seconds` (the elapsed time modulo 86400) with the TTL instead of
the total elapsed time. -/
theorem C6_ttl_wraparound :
    ScenarioGenerator.get_cached_scenario defaultGenConfig
      [(keyCached, entryCached)] keyCached 86500 = some (scenCached, vresOk) ∧
    defaultGenConfig.cache_ttl ≤ 86500 ∧
    ScenarioGenerator.get_cached_scenario defaultGenConfig
      [(keyCached, entryCached)] keyCached 3600 = none ∧
    ScenarioGenerator.get_cached_scenario defaultGenConfig
      [(keyCached, entryCached)] keyCached 3599 = some (scenCached, vresOk) := by
  decide

/-- C8 (counterexample): an AI scenario whose scenario-level score is 1.0 and
whose single inject carries an **explicit** score of 0.0 gets confidence 1.0
from the code — the claim's mean over present scores is (1.0 + 0.0)/2 = 0.5,
but the code's truthiness test drops the explicit 0.0 like a missing score. -/
theorem C8_counterexample :
    ScenarioValidator.validate_ai_content scenZeroScore = 1 ∧
    specAiConfidence scenZeroScore = 1/2 ∧
    ScenarioValidator.validate_ai_content scenZeroScore ≠
      specAiConfidence scenZeroScore := by decide

/-- C8 (amended): the AI confidence is the mean over the scores that are
present **and non-zero** (Python truthiness); whenever no present score is
0.0 this coincides with the spec's mean over present scores. -/
theorem C8_amended_truthy_mean (s : Scenario)
    (hai : s.metadata.ai_generated = true)
    (hd : s.metadata.ai_description_score ≠ some 0)
    (hi : ∀ i ∈ s.injects, i.ai_content_score ≠ some 0) :
    ScenarioValidator.validate_ai_content s = specAiConfidence s := by
  have h1 : (match s.metadata.ai_description_score with
      | some q => if q ≠ 0 then [q] else []
      | none => ([] : List ℚ)) = s.metadata.ai_description_score.toList := by
    cases hq : s.metadata.ai_description_score with
    | none => rfl
    | some q =>
        have : q ≠ 0 := fun h0 => hd (by rw [hq, h0])
        simp [this]
  have h2 : s.injects.filterMap (fun i => match i.ai_content_score with
      | some q => if q ≠ 0 then some q else none
      | none => none) = s.injects.filterMap (fun i => i.ai_content_score) := by
    apply List.filterMap_congr
    intro i hmem
    cases hq : i.ai_content_score with
    | none => rfl
    | some q =>
        have : q ≠ 0 := fun h0 => hi i hmem (by rw [hq, h0])
        simp [this]
  unfold ScenarioValidator.validate_ai_content specAiConfidence
  simp only [hai, h1, h2]
  simp

/-- Witness for C8 (amended) on a scenario whose three scores are all
non-zero. -/
theorem C8_witness :
    ScenarioValidator.validate_ai_content scenAiScored =
      specAiConfidence scenAiScored :=
  C8_amended_truthy_mean scenAiScored (by decide) (by decide) (by decide)

theorem add_inject_failure_unchanged (s : Scenario) (i : Inject)
    (h : (s.add_inject i).1.1 = false) : (s.add_inject i).2 = s := by
  by_cases hdup : s.injects.any
      (fun e => e.sequence_number == i.sequence_number) = true
  · simp [Scenario.add_inject, hdup]
  · by_cases hover : s.duration_minutes <
        (s.injects.map (fun x => x.delay_minutes)).sum + i.delay_minutes
    · simp [Scenario.add_inject, hdup, hover]
    · exact absurd h (by simp [Scenario.add_inject, hdup, hover])

/-- C9 (counterexample): with an always-accepting validator — so that nothing
but inject handling can fail — a content source whose inject sequence contains
one malformed record (missing content fields) makes every generation attempt
abort and `generate_scenario` raise attempts-exhausted; the claim says a
malformed inject record is dropped and never fails the attempt. -/
theorem C9_counterexample :
    (ScenarioGenerator.generate_scenario defaultGenConfig sourceBadInject
      validateAlways "security_incident" orgGen ["soc2"] (some 2) 0 st0).1 =
      .error .attempts_exhausted := by decide

/-- C9 (amended): in the inject-attachment loop, a record rejected by
`add_inject` (duplicate sequence number or timeline overflow) is skipped and
processing continues unchanged, but a record on which `Inject` construction
raises (bad type or missing content fields) aborts the whole loop — and with
it the generation attempt, which is caught and counted as failed. -/
theorem C9_single_inject_failures (s : Scenario) (d : InjectData)
    (rest : List InjectData) :
    (∀ e, mkInject d = .error e → addAllInjects s (d :: rest) = .error e) ∧
    (∀ i, mkInject d = .ok i → (s.add_inject i).1.1 = false →
      addAllInjects s (d :: rest) = addAllInjects s rest) := by
  constructor
  · intro e he
    simp [addAllInjects, he, Except.bind, bind]
  · intro i hi hfail
    simp [addAllInjects, hi, Except.bind, bind,
      add_inject_failure_unchanged s i hfail]

/-- Witness for C9 (amended): the malformed record aborts the loop with the
raised error; a duplicate-sequence record is skipped, leaving the loop where
it would be without that record. -/
theorem C9_witness :
    addAllInjects scenEmpty [badInjectData] =
      .error "Missing required content fields" ∧
    addAllInjects scenWithSeqOne [goodInjectData] =
      addAllInjects scenWithSeqOne [] :=
  ⟨(C9_single_inject_failures scenEmpty badInjectData []).1 _ (by decide),
   (C9_single_inject_failures scenWithSeqOne goodInjectData []).2
     ⟨"g1", "Inject gamma", "A well formed inject description here",
      "notification", 1, 0, REQUIRED_CONTENT_FIELDS, none⟩
     (by decide) (by decide)⟩

theorem scoreControls_ok_length (fw : Framework) (level : ValidationLevel) :
    ∀ (mapping : List (String × ControlData)) results,
      scoreControls fw level mapping = .ok results →
      results.length = mapping.length := by
  intro mapping
  induction mapping with
  | nil =>
      intro results h
      simp [scoreControls] at h
      simp [← h]
  | cons hd rest ih =>
      obtain ⟨c, d⟩ := hd
      intro results h
      rw [scoreControls] at h
      cases hval : fw.validate_control c d level with
      | error e => rw [hval] at h; simp [Except.bind, bind] at h
      | ok v =>
          rw [hval] at h
          cases htail : scoreControls fw level rest with
          | error e =>
              rw [htail] at h
              simp [Except.bind, bind] at h
          | ok tail =>
              rw [htail] at h
              simp only [Except.bind, bind, pure, Except.pure, Except.ok.injEq] at h
              rw [← h]
              simp [ih tail htail]

theorem scoreControls_error_of_missing (fw : Framework) (level : ValidationLevel)
    (mapping : List (String × ControlData)) (cid : String) (cdata : ControlData)
    (hmem : (cid, cdata) ∈ mapping) (hmiss : fw.controls.lookup cid = none) :
    ∃ e, scoreControls fw level mapping = .error e := by
  induction mapping with
  | nil => cases hmem
  | cons hd rest ih =>
      obtain ⟨c, d⟩ := hd
      rcases List.mem_cons.mp hmem with heq | htl
      · have hc : c = cid := (congrArg Prod.fst heq).symm
        subst hc
        refine ⟨"Invalid control ID: " ++ c, ?_⟩
        rw [scoreControls]
        simp [Framework.validate_control, hmiss, Except.bind, bind]
      · cases hval : fw.validate_control c d level with
        | error e =>
            refine ⟨e, ?_⟩
            rw [scoreControls, hval]
            rfl
        | ok v =>
            obtain ⟨e, he⟩ := ih htl
            refine ⟨e, ?_⟩
            rw [scoreControls, hval]
            simp [Except.bind, bind, he]

/-- C10 (counterexample): a mapping containing the fully evidenced `cc1` plus
an unknown control `zz9` makes `validate_compliance_mapping` raise — `cc1`'s
perfect score is discarded rather than the unknown control being skipped —
while alone `cc1` scores 1.0; in the validator the raised error is caught and
the whole compliance result collapses to score 0.0 / non-compliant. -/
theorem C10_counterexample :
    validate_compliance_mapping [("cc1", soc2FullImpl), ("zz9", implEmpty)]
      "soc2" .strict = .error "Invalid control ID: zz9" ∧
    validate_compliance_mapping [("cc1", soc2FullImpl)] "soc2" .strict =
      .ok (true, ⟨[("cc1", true, 1)], ⟨1, 1, 1⟩⟩) ∧
    ScenarioValidator.validate_compliance_requirements (19/20)
      [("cc1", soc2FullImpl), ("zz9", implEmpty)] "soc2" =
      (false, ⟨0, none, false⟩) := by decide

/-- C10 (amended): the scoring evaluates exactly the controls of the mapping —
controls absent from the mapping count toward neither numerator nor
denominator (`total_controls` equals the mapping size) — but a mapped control
absent from the framework raises `ValueError`, aborting the scoring of the
whole mapping instead of being skipped. -/
theorem C10_mapping_domain (fw : Framework) (level : ValidationLevel)
    (mapping : List (String × ControlData)) :
    (∀ results, scoreControls fw level mapping = .ok results →
      results.length = mapping.length) ∧
    (∀ b res, validateMappingWith fw mapping level = .ok (b, res) →
      res.summary.total_controls = mapping.length) ∧
    (∀ cid cdata, (cid, cdata) ∈ mapping → fw.controls.lookup cid = none →
      ∃ e, validateMappingWith fw mapping level = .error e) := by
  refine ⟨scoreControls_ok_length fw level mapping, ?_, ?_⟩
  · intro b res h
    unfold validateMappingWith at h
    cases hres : scoreControls fw level mapping with
    | error e => rw [hres] at h; simp [Except.bind, bind] at h
    | ok results =>
        rw [hres] at h
        simp only [Except.bind, bind, pure, Except.pure, Except.ok.injEq,
          Prod.mk.injEq] at h
        rw [← h.2]
        exact scoreControls_ok_length fw level mapping results hres
  · intro cid cdata hmem hmiss
    obtain ⟨e, he⟩ :=
      scoreControls_error_of_missing fw level mapping cid cdata hmem hmiss
    refine ⟨e, ?_⟩
    unfold validateMappingWith
    simp [he, Except.bind, bind]

/-- Witness for C10 (amended): the singleton `cc1` mapping is scored with
denominator 1; adding the unknown `zz9` makes the scoring error out. -/
theorem C10_witness :
    ([("cc1", true, (1 : ℚ))].length =
      [("cc1", soc2FullImpl)].length) ∧
    (∃ e, validateMappingWith soc2Framework
      [("cc1", soc2FullImpl), ("zz9", implEmpty)] .strict = .error e) :=
  ⟨(C10_mapping_domain soc2Framework .strict [("cc1", soc2FullImpl)]).1 _
      (by decide),
   (C10_mapping_domain soc2Framework .strict
      [("cc1", soc2FullImpl), ("zz9", implEmpty)]).2.2 "zz9" implEmpty
      (by decide) (by decide)⟩

/-- C5 (counterexample): when the first call's validator rejects attempt 1 and
accepts attempt 2, the base-generation operation is invoked twice by the first
call alone; the second call (identical inputs, 10 s later) does hit the cache,
returns the identical pair and leaves the state untouched — yet the two calls
together invoked the content source twice, not "at most once in total". -/
theorem C5_counterexample :
    runCacheFirst.1.isOk = true ∧ runCacheFirst.2.base_calls = 2 ∧
    runCacheSecond.1 = runCacheFirst.1 ∧ runCacheSecond.2 = runCacheFirst.2 ∧
    ¬ runCacheSecond.2.base_calls ≤ 1 := by decide

theorem attemptLoop_ok_cache (cfg : GenConfig) (source : ContentSource)
    (validate : Scenario → Bool × ValidationResult) (scenario_type : String)
    (org : OrgContext) (fws : List String) (complexity : Int) (key : CacheKey)
    (now : Nat) :
    ∀ fuel st p st1,
      attemptLoop cfg source validate scenario_type org fws complexity key now
        fuel st = (.ok p, st1) →
      st1.cache = (key, ⟨p.1, p.2, now⟩) :: st.cache := by
  intro fuel
  induction fuel with
  | zero =>
      intro st p st1 h
      simp [attemptLoop] at h
  | succ n ih =>
      intro st p st1 h
      rw [attemptLoop] at h
      cases hb : source.base st.base_calls with
      | error e =>
          simp only [hb] at h
          exact ih { st with base_calls := st.base_calls + 1 } p st1 h
      | ok sdata =>
          simp only [hb] at h
          cases hm : mkScenario "" sdata.title sdata.description scenario_type
              complexity (some org) none sdata.compliance_mappings
              ⟨true, none, none⟩ with
          | error e =>
              simp only [hm] at h
              exact ih { st with base_calls := st.base_calls + 1 } p st1 h
          | ok scenario0 =>
              simp only [hm] at h
              cases hj : source.injects st.inject_calls with
              | error e =>
                  simp only [hj] at h
                  exact ih ⟨st.cache, st.base_calls + 1, st.inject_calls + 1⟩ p st1 h
              | ok inject_records =>
                  simp only [hj] at h
                  cases ha : addAllInjects scenario0 inject_records with
                  | error e =>
                      simp only [ha] at h
                      exact ih ⟨st.cache, st.base_calls + 1, st.inject_calls + 1⟩ p st1 h
                  | ok scenario =>
                      simp only [ha] at h
                      split at h
                      · rw [Prod.mk.injEq] at h
                        obtain ⟨h1, h2⟩ := h
                        rw [Except.ok.injEq] at h1
                        subst h1
                        rw [← h2]
                      · exact ih ⟨st.cache, st.base_calls + 1, st.inject_calls + 1⟩ p st1 h

/-- C5 (amended): once a first `generate` call has completed successfully from
a cache-miss state, any later call with identical inputs whose start falls
within the (day-wrapped) TTL window of the first call's completion returns the
identically same (Scenario, ValidationResult) pair and leaves the generator
state — in particular the content-source invocation counters — completely
unchanged: the second call invokes the content source zero times; the total
number of base-generation invocations is whatever the first call needed
(exactly one when its first attempt validated). -/
theorem C5_cache_hit_idempotent (cfg : GenConfig) (source : ContentSource)
    (validate : Scenario → Bool × ValidationResult) (scenario_type : String)
    (org : OrgContext) (fws : List String) (clvl : Option Int)
    (now now2 : Nat) (st st1 : GenState) (p : Scenario × ValidationResult)
    (hmiss : ScenarioGenerator.get_cached_scenario cfg st.cache
      ⟨scenario_type, org, fws, complexityOrDefault clvl⟩ now = none)
    (h1 : ScenarioGenerator.generate_scenario cfg source validate scenario_type
      org fws clvl now st = (.ok p, st1))
    (httl : timedeltaSeconds (now2 - now) < cfg.cache_ttl) :
    ScenarioGenerator.generate_scenario cfg source validate scenario_type org
      fws clvl now2 st1 = (.ok p, st1) := by
  unfold ScenarioGenerator.generate_scenario at h1 ⊢
  by_cases ht : scenario_type ∈ SCENARIO_TYPES
  · rw [if_neg (not_not_intro ht)] at h1 ⊢
    by_cases hc : 1 ≤ complexityOrDefault clvl ∧ complexityOrDefault clvl ≤ 5
    · rw [if_neg (not_not_intro hc)] at h1 ⊢
      simp only [hmiss] at h1
      have hcache := attemptLoop_ok_cache cfg source validate scenario_type org
        fws (complexityOrDefault clvl)
        ⟨scenario_type, org, fws, complexityOrDefault clvl⟩ now
        cfg.max_attempts st p st1 h1
      have httl2 : (now2 - now) % 86400 < cfg.cache_ttl := httl
      have hhit : ScenarioGenerator.get_cached_scenario cfg st1.cache
          ⟨scenario_type, org, fws, complexityOrDefault clvl⟩ now2 =
          some (p.1, p.2) := by
        unfold ScenarioGenerator.get_cached_scenario
        rw [hcache]
        simp [List.lookup, timedeltaSeconds, httl2]
      simp [hhit]
    · exfalso
      rw [if_pos hc] at h1
      exact Except.noConfusion (congrArg Prod.fst h1)
  · exfalso
    rw [if_pos ht] at h1
    exact Except.noConfusion (congrArg Prod.fst h1)

/-- The pair produced by the caching fixture's first call (accepted on its
second attempt): the attempt-index-1 content, no injects, and the accepting
validation result. -/
def cachePair : Scenario × ValidationResult :=
  (⟨"", "Attempt 1 scenario title",
    "A generated scenario description used by the fixtures",
    "security_incident", 2, 60, [], [], some orgGen, ⟨true, none, none⟩,
    ⟨none⟩⟩, vresOk)

/-- Witness for C5 (amended) on the caching fixture: the second call, 10 s
after the first, returns the first call's exact pair and state. -/
theorem C5_witness :
    ScenarioGenerator.generate_scenario defaultGenConfig sourceFresh
      validateSecond "security_incident" orgGen ["soc2"] (some 2) 10
      runCacheFirst.2 = (.ok cachePair, runCacheFirst.2) :=
  C5_cache_hit_idempotent defaultGenConfig sourceFresh validateSecond
    "security_incident" orgGen ["soc2"] (some 2) 0 10 st0 runCacheFirst.2
    cachePair (by decide) (by decide) (by decide)

end GameDay
